import Mathlib

/-!
Shallow embedding of notebooker's job-orchestration and result-persistence
core: the job launcher and output monitor of `web/routes/run_report.py`, the
rerun coordinator `_rerun_report`, and the snapshot exporter `snapshot.py`.
External collaborators (the serializer / Result Store, `os.makedirs`,
`os.path`) are modelled by their contracts, as documented on each definition.
-/

namespace Notebooker

/-- Job status enumeration. Modelled from the spec: `notebooker.constants.JobStatus`
is not included in the sources; the spec lists the five states
SUBMITTED, RUNNING, DONE, ERROR, CANCELLED. -/
inductive JobStatus where
  | SUBMITTED
  | RUNNING
  | DONE
  | ERROR
  | CANCELLED
deriving DecidableEq

/-- A persisted Job Record. The fields mirror exactly what `run_report` passes
to `save_check_stub` (report_title, job_start_time, status, overrides, mailto,
generate_pdf_output, hide_code, scheduler_job_id) plus the fields read back by
`_rerun_report` and by the snapshot exporter (`raw_html`, the binary resource
outputs under `raw_html_resources["outputs"]`, and `stdout` written by the
Output Monitor). `mailfrom` belongs to the stored record per the spec's data
model although `run_report`'s stub write never supplies one. `overrides` is an
insertion-ordered association list, as a Python dict. Binary payloads are byte
lists. -/
structure JobRecord where
  report_name : String
  report_title : String
  job_start_time : Nat
  status : JobStatus
  overrides : List (String × String)
  mailto : String
  generate_pdf_output : Bool
  hide_code : Bool
  scheduler_job_id : Option String
  mailfrom : Option String
  stdout : List String
  raw_html : String
  raw_html_resources_outputs : List (String × List Nat)
deriving DecidableEq

/-- The Result Store: job_id-keyed records, newest write first. -/
abbrev ResultStore := List (String × JobRecord)

/-- Modelled from the spec: `save_check_stub(job_id, report_name, **fields)` of
the serializer (`notebooker.serialization`, not included under src) is
create-or-overwrite of the record keyed by `job_id`; realized as a prepend
combined with first-match lookup, which is latest-write-wins. -/
def save_check_stub (store : ResultStore) (job_id : String) (rec : JobRecord) : ResultStore :=
  (job_id, rec) :: store

/-- Modelled from the spec: `get_check_result(job_id)` of the serializer is a
point lookup returning the record, or `none` for an unknown job. -/
def get_check_result (store : ResultStore) (job_id : String) : Option JobRecord :=
  (store.find? fun p => p.1 == job_id).map fun p => p.2

/-- Python `str.startswith`: a prefix test on the character sequence. -/
def startswith (s marker : String) : Bool :=
  marker.data.isPrefixOf s.data

/-- Python `str.endswith`: a suffix test on the character sequence. -/
def endswith (s marker : String) : Bool :=
  marker.data.isSuffixOf s.data

/-- Title derivation of `_rerun_report` (run_report.py lines 354-355): keep the
stored title when it already starts with "Rerun of ", otherwise prepend that
marker. -/
def rerun_title (report_title : String) : String :=
  if startswith report_title "Rerun of " then report_title
  else "Rerun of " ++ report_title

/-- Python `str.split(sep)` on a character sequence; the result is always
nonempty, and splitting the empty string yields one empty piece. -/
def splitChars (sep : Char) : List Char → List (List Char)
  | [] => [[]]
  | c :: cs =>
    if c = sep then [] :: splitChars sep cs
    else
      match splitChars sep cs with
      | [] => [c] :: []
      | h :: t => (c :: h) :: t

/-- Python `str.split(sep)` lifted to `String`. -/
def py_split (s : String) (sep : Char) : List String :=
  (splitChars sep s.data).map String.mk

/-- Posix `os.path.join` with two arguments: an absolute second argument wins;
otherwise the pieces are joined with a single slash. -/
def os_path_join (a b : String) : String :=
  if startswith b "/" then b
  else if a = "" then b
  else if endswith a "/" then a ++ b
  else a ++ "/" ++ b

/-- Posix `os.path.dirname`: the characters before the final slash (the
root-path corner case "/x" is not exercised by the relative report paths this
code builds and maps to ""). -/
def os_path_dirname (p : String) : String :=
  String.mk (((p.data.reverse.dropWhile fun c => c ≠ '/').drop 1).reverse)

/-- The errno value `errno.EEXIST`. -/
def EEXIST : Int := 17

/-- The ambient directory state seen by `os.makedirs`: the set of directories
that already exist, plus, per directory, an optional non-EEXIST errno with
which creation would fail (for example EACCES) — this models OS directory
creation failures other than "already exists". -/
structure OSEnv where
  dirs : List String
  mkdirFails : String → Option Int

/-- Behaviour of `os.makedirs(d)`: raises OSError EEXIST when `d` already
exists, raises the environment-specified errno when creation fails for another
reason, and otherwise records the new directory. -/
def os_makedirs (env : OSEnv) (d : String) : Except Int OSEnv :=
  if env.dirs.contains d then Except.error EEXIST
  else
    match env.mkdirFails d with
    | some e => Except.error e
    | none => Except.ok ⟨d :: env.dirs, env.mkdirFails⟩

/-- snapshot.py lines 44-49, `_create_dirs_if_not_present(filename)`: attempt
`os.makedirs(os.path.dirname(filename))` and re-raise the OSError unless its
errno equals EEXIST. -/
def _create_dirs_if_not_present (env : OSEnv) (filename : String) : Except Int OSEnv :=
  match os_makedirs env (os_path_dirname filename) with
  | Except.ok env2 => Except.ok env2
  | Except.error exc => if exc ≠ EEXIST then Except.error exc else Except.ok env

/-- A filesystem view: the directory state plus the written text files and
binary files, newest write first (a later write to the same path shadows an
earlier one, which is the overwrite semantics of `open(path, "w")`). -/
structure FS where
  os : OSEnv
  files : List (String × String)
  binfiles : List (String × List Nat)

/-- snapshot.py lines 34-41, `_write_notebook_html(result, directory)`: build
the override label by concatenating each name_value pair of the record's
overrides in order, create missing directories for
`directory/<label>.html`, and write the record's rendered html there. -/
def _write_notebook_html (fs : FS) (result : JobRecord) (directory : String) : Except Int FS :=
  let override_str := String.join (result.overrides.map fun p => p.1 ++ "_" ++ p.2)
  let save_file_name := override_str ++ ".html"
  let save_file_path := os_path_join directory save_file_name
  match _create_dirs_if_not_present fs.os save_file_path with
  | Except.error exc => Except.error exc
  | Except.ok os2 => Except.ok ⟨os2, (save_file_path, result.raw_html) :: fs.files, fs.binfiles⟩

/-- The per-resource loop body of snapshot.py lines 25-31,
`_write_notebook_outputs`: for each relative path and binary payload, create
directories for `directory/<path>` and write the payload. -/
def write_outputs_loop (fs : FS) (directory : String) :
    List (String × List Nat) → Except Int FS
  | [] => Except.ok fs
  | (path, output) :: rest =>
    let output_path := os_path_join directory path
    match _create_dirs_if_not_present fs.os output_path with
    | Except.error exc => Except.error exc
    | Except.ok os2 =>
      write_outputs_loop ⟨os2, fs.files, (output_path, output) :: fs.binfiles⟩ directory rest

/-- snapshot.py `_write_notebook_outputs(result, directory)`. -/
def _write_notebook_outputs (fs : FS) (result : JobRecord) (directory : String) : Except Int FS :=
  write_outputs_loop fs directory result.raw_html_resources_outputs

/-- snapshot.py lines 19-22, `_write_results(results, directory)`: per record,
write the html then the binary outputs; the first raised error aborts. -/
def _write_results (fs : FS) (directory : String) : List JobRecord → Except Int FS
  | [] => Except.ok fs
  | result :: rest =>
    match _write_notebook_html fs result directory with
    | Except.error exc => Except.error exc
    | Except.ok fs2 =>
      match _write_notebook_outputs fs2 result directory with
      | Except.error exc => Except.error exc
      | Except.ok fs3 => _write_results fs3 directory rest

/-- The report output directory derived in `snap_latest_successful_notebooks`
(snapshot.py lines 13-14): the final slash-separated segment of the report
name, joined under the configured output directory. -/
def snap_report_directory (output_dir report_name : String) : String :=
  os_path_join output_dir ((py_split report_name '/').getLastD "")

/-- The configuration that `run_report` reads from the Flask application and
its helpers: `sys.exec_prefix`, `get_output_dir()`, `get_template_dir()`, the
app config entries, and the serializer selection with its command-line
arguments. -/
structure AppConfig where
  exec_prefix : String
  output_dir : String
  template_dir : String
  py_template_base_dir : String
  py_template_subdir : String
  default_mailfrom : String
  notebooker_disable_git : Bool
  serializer_cls : String
  serializer_cmdline_args : List String
deriving DecidableEq

/-- Escaping of quote and backslash characters, the part of Python's
`json.dumps` string encoding exercised by override names and values. -/
def json_escape_string (s : String) : String :=
  String.mk (s.data.foldr
    (fun c acc => if c = '"' ∨ c = '\\' then '\\' :: c :: acc else c :: acc) [])

/-- Python `json.dumps` of a string-to-string dict in insertion order, as used
for the `--overrides-as-json` argument. -/
def json_dumps (overrides : List (String × String)) : String :=
  "\x7b" ++ String.intercalate ", " (overrides.map fun p =>
    "\"" ++ json_escape_string p.1 ++ "\": \"" ++ json_escape_string p.2 ++ "\"") ++ "\x7d"

/-- The subprocess command line built by `run_report` (run_report.py lines
195-231): one explicit argument per execution parameter. -/
def build_command (cfg : AppConfig) (job_id report_name report_title mailto : String)
    (overrides : List (String × String)) (generate_pdf_output hide_code : Bool)
    (n_retries : Nat) (prepare_only : Bool)
    (scheduler_job_id mailfrom : Option String) : List String :=
  [os_path_join (os_path_join cfg.exec_prefix "bin") "notebooker-cli",
   "--output-base-dir", cfg.output_dir,
   "--template-base-dir", cfg.template_dir,
   "--py-template-base-dir", cfg.py_template_base_dir,
   "--py-template-subdir", cfg.py_template_subdir,
   "--default-mailfrom", cfg.default_mailfrom]
  ++ (if cfg.notebooker_disable_git then ["--notebooker-disable-git"] else [])
  ++ ["--serializer-cls", cfg.serializer_cls]
  ++ cfg.serializer_cmdline_args
  ++ ["execute-notebook",
      "--job-id", job_id,
      "--report-name", report_name,
      "--report-title", report_title,
      "--mailto", mailto,
      "--overrides-as-json", json_dumps overrides,
      if generate_pdf_output then "--pdf-output" else "--no-pdf-output",
      if hide_code then "--hide-code" else "--show-code",
      "--n-retries", toString n_retries]
  ++ (if prepare_only then ["--prepare-notebook-only"] else [])
  ++ (match scheduler_job_id with
      | some s => ["--scheduler-job-id=" ++ s]
      | none => [])
  ++ (match mailfrom with
      | some m => ["--mailfrom=" ++ m]
      | none => [])

/-- The observable steps of one `run_report` call, in program order. -/
inductive Event where
  | stubWrite (job_id : String) (rec : JobRecord)
  | spawn (command : List String)
  | startMonitor (job_id : String)
  | wait
  | sleepPoll
deriving DecidableEq

/-- The ambient nondeterminism consumed by one `run_report` call: the fresh
`uuid.uuid4()` job id, the `datetime.now()` submission timestamp, and the
value that `p.returncode` holds at the post-wait or post-poll check
(`none` meaning the process has not yet exited). -/
structure LaunchEnv where
  job_id : String
  job_start_time : Nat
  returncode : Option Int
deriving DecidableEq

/-- run_report.py lines 151-248, `run_report`: generate the job id, write the
initial Job Record with status SUBMITTED via `save_check_stub`, build the
command line, spawn the subprocess, start the stderr monitor thread, apply the
wait semantics (synchronous join versus one-second sleep plus poll), and raise
with the exit code when `p.returncode` is truthy. The returned triple is the
Result Store after the stub write, the event trace, and either the raised
failure's exit code or the returned job id. The stub record carries the exact
keyword arguments of the `save_check_stub` call; `mailfrom`, `stdout` and the
rendered-output fields are not part of that call and stay empty. -/
def run_report (env : LaunchEnv) (cfg : AppConfig) (store : ResultStore)
    (report_name report_title mailto : String) (overrides : List (String × String))
    (hide_code generate_pdf_output prepare_only : Bool)
    (scheduler_job_id : Option String) (run_synchronously : Bool)
    (mailfrom : Option String) (n_retries : Nat) :
    ResultStore × List Event × Except Int String :=
  let job_id := env.job_id
  let stub : JobRecord :=
    ⟨report_name, report_title, env.job_start_time, JobStatus.SUBMITTED, overrides, mailto,
     generate_pdf_output, hide_code, scheduler_job_id, none, [], "", []⟩
  let store1 := save_check_stub store job_id stub
  let command := build_command cfg job_id report_name report_title mailto overrides
    generate_pdf_output hide_code n_retries prepare_only scheduler_job_id mailfrom
  let trace := Event.stubWrite job_id stub :: Event.spawn command ::
    Event.startMonitor job_id :: [if run_synchronously then Event.wait else Event.sleepPoll]
  let outcome : Except Int String :=
    match env.returncode with
    | some rc => if rc ≠ 0 then Except.error rc else Except.ok job_id
    | none => Except.ok job_id
  (store1, trace, outcome)

/-- run_report.py lines 350-365, `_rerun_report(job_id, ...)`: look up the
prior record (`abort(404)`, modelled as `none`, when absent), derive the title,
and re-invoke `run_report` with the prior record's report_name, mailto and
overrides, `scheduler_job_id=None`, and the call-site defaults passed
explicitly: hide_code=False, mailfrom=None, n_retries=3. -/
def _rerun_report (env : LaunchEnv) (cfg : AppConfig) (store : ResultStore)
    (job_id : String) (prepare_only run_synchronously : Bool) :
    Option (ResultStore × List Event × Except Int String) :=
  match get_check_result store job_id with
  | none => none
  | some result =>
    let title := rerun_title result.report_title
    some (run_report env cfg store result.report_name title result.mailto result.overrides
      false result.generate_pdf_output prepare_only none run_synchronously none 3)

instance {ε α : Type} [DecidableEq ε] [DecidableEq α] : DecidableEq (Except ε α) := fun x y =>
  match x, y with
  | Except.error a, Except.error b =>
    if h : a = b then isTrue (congrArg Except.error h)
    else isFalse fun hh => h (by injection hh)
  | Except.ok a, Except.ok b =>
    if h : a = b then isTrue (congrArg Except.ok h)
    else isFalse fun hh => h (by injection hh)
  | Except.error _, Except.ok _ => isFalse fun hh => Except.noConfusion hh
  | Except.ok _, Except.error _ => isFalse fun hh => Except.noConfusion hh

/-- One iteration's inputs to the `_monitor_stderr` while loop: the result of
`process.stderr.readline().decode("utf-8")` (an `.error` is a raised
UnicodeDecodeError), the value of `process.poll()` at this iteration, whether
the per-line `update_stdout` call raises, and whether that append actually
lands in the store (an append can be lost downstream without the writer seeing
an exception). -/
structure ReadEv where
  decoded : Except Unit String
  poll : Option Int
  appendRaises : Bool
  appendApplied : Bool
deriving DecidableEq

/-- Outcome of the `_monitor_stderr` loop: normal termination carrying the
joined return value and the store's final stdout; an exception propagating out
of the loop, carrying the store's stdout and the local buffer at that point;
or the loop still running when the given reads are exhausted. -/
inductive MonitorOutcome where
  | finished (ret : String) (stored : List String)
  | raised (stored : List String) (buffer : List String)
  | running (stored : List String) (buffer : List String)
deriving DecidableEq

/-- run_report.py lines 136-148, the while loop of `_monitor_stderr`, run over
a given sequence of reads. `buffer` is the local `stderr` list and `stored` is
the Result Store's stdout field for this job. A read of "" while the process
has exited triggers `update_stdout(job_id, stderr, replace=True)` — the final
replace of the stored value by the whole buffer — and the loop returns
`"".join(stderr)`. Any other read is appended to the buffer and then written
with `update_stdout(job_id, new_lines=[line])`; there is no exception
handling, so a decode error or a raising append propagates out. -/
def monitor_loop (buffer stored : List String) : List ReadEv → MonitorOutcome
  | [] => MonitorOutcome.running stored buffer
  | ev :: rest =>
    match ev.decoded with
    | Except.error _ => MonitorOutcome.raised stored buffer
    | Except.ok line =>
      if line = "" ∧ ev.poll ≠ none then
        MonitorOutcome.finished (String.join buffer) buffer
      else
        let buffer2 := buffer ++ [line]
        if ev.appendRaises then MonitorOutcome.raised stored buffer2
        else monitor_loop buffer2 (if ev.appendApplied then stored ++ [line] else stored) rest

/-- The decoded text of a read, defaulting to "" for an undecodable one. -/
def decoded_line (ev : ReadEv) : String :=
  match ev.decoded with
  | Except.ok line => line
  | Except.error _ => ""

/-! Helper lemmas shared by several of the claim theorems below. -/

theorem get_check_result_save_same (store : ResultStore) (k : String) (r : JobRecord) :
    get_check_result (save_check_stub store k r) k = some r := by
  simp [get_check_result, save_check_stub, List.find?]

theorem get_check_result_save_other (store : ResultStore) (k j : String) (r : JobRecord)
    (h : j ≠ k) :
    get_check_result (save_check_stub store k r) j = get_check_result store j := by
  have hkj : (k == j) = false := by simp [Ne.symm h]
  simp [get_check_result, save_check_stub, List.find?, hkj]

theorem startswith_append (marker t : String) : startswith (marker ++ t) marker = true := by
  simp [startswith, String.data_append, List.isPrefixOf_iff_prefix]

/-- C4 counterexample: the stored title "Rerun of Rerun of x" (a title a caller
can submit directly) derives to itself, which starts with the marker twice —
the derived title does not start with exactly one "Rerun of " marker. The
second conjunct exhibits the second marker right after the first nine
characters. -/
theorem rerun_title_two_markers_counterexample :
    rerun_title "Rerun of Rerun of x" = "Rerun of Rerun of x" ∧
    "Rerun of ".data.isPrefixOf ((rerun_title "Rerun of Rerun of x").data.drop 9) = true := by
  decide

/-- C4 amended: the derivation is idempotent on the marker — the derived title
always starts with the marker, the marker is prepended only when the stored
title does not already start with it (so a marker-free title gains exactly
one), and rerunning a rerun never accumulates another marker. -/
theorem rerun_title_idempotent (t : String) :
    rerun_title (rerun_title t) = rerun_title t ∧
    startswith (rerun_title t) "Rerun of " = true ∧
    (startswith t "Rerun of " = false → rerun_title t = "Rerun of " ++ t) := by
  by_cases h : startswith t "Rerun of " = true
  · refine ⟨?_, ?_, ?_⟩ <;> simp [rerun_title, h]
  · have h2 : startswith t "Rerun of " = false := by simpa using h
    refine ⟨?_, ?_, fun _ => ?_⟩
    · simp [rerun_title, h2, startswith_append]
    · simp [rerun_title, h2, startswith_append]
    · simp [rerun_title, h2]

/-- C4 witness: a marker-free title gains exactly one marker and a second
derivation changes nothing. -/
theorem rerun_title_idempotent_witness :
    rerun_title "Q1" = "Rerun of " ++ "Q1" ∧
    rerun_title (rerun_title "Q1") = rerun_title "Q1" :=
  ⟨(rerun_title_idempotent "Q1").2.2 (by decide), (rerun_title_idempotent "Q1").1⟩

/-- C1: run_report writes the initial Job Record — status SUBMITTED, overrides
equal to the input — via save_check_stub before the spawn event, and whenever
it returns a job id, an immediate lookup of that id in the resulting Result
Store returns that record. -/
theorem run_report_initial_record (env : LaunchEnv) (cfg : AppConfig) (store : ResultStore)
    (rn rt mt : String) (ov : List (String × String)) (hc gp po : Bool)
    (sj : Option String) (rs : Bool) (mf : Option String) (nr : Nat) :
    (∃ rec cmd rest,
      (run_report env cfg store rn rt mt ov hc gp po sj rs mf nr).2.1 =
        Event.stubWrite env.job_id rec :: Event.spawn cmd :: rest ∧
      rec.status = JobStatus.SUBMITTED ∧ rec.overrides = ov) ∧
    (∀ jid, (run_report env cfg store rn rt mt ov hc gp po sj rs mf nr).2.2 = Except.ok jid →
      jid = env.job_id ∧
      ∃ rec, get_check_result (run_report env cfg store rn rt mt ov hc gp po sj rs mf nr).1 jid =
        some rec ∧ rec.status = JobStatus.SUBMITTED ∧ rec.overrides = ov) := by
  refine ⟨⟨_, _, _, rfl, rfl, rfl⟩, ?_⟩
  intro jid hok
  have hjid : jid = env.job_id := by
    rcases hrc : env.returncode with _ | rc
    · simp [run_report, hrc] at hok
      exact hok.symm
    · by_cases hz : rc = 0
      · simp [run_report, hrc, hz] at hok
        exact hok.symm
      · simp [run_report, hrc, hz] at hok
  subst hjid
  exact ⟨rfl, _, get_check_result_save_same store env.job_id _, rfl, rfl⟩

/-- C1 witness: a concrete submission that returns, whose returned id looks up
to the SUBMITTED record with the input overrides. -/
theorem run_report_initial_record_witness :
    ∃ rec,
      get_check_result
        (run_report ⟨"jid-1", 5, none⟩ ⟨"/usr", "out", "tpl", "pyb", "pys", "mf", false, "S", []⟩
          [] "sales/eu" "Q1" "a@b" [("q", "1")] false false false none false none 3).1
        "jid-1" = some rec ∧
      rec.status = JobStatus.SUBMITTED ∧ rec.overrides = [("q", "1")] :=
  ((run_report_initial_record ⟨"jid-1", 5, none⟩
      ⟨"/usr", "out", "tpl", "pyb", "pys", "mf", false, "S", []⟩
      [] "sales/eu" "Q1" "a@b" [("q", "1")] false false false none false none 3).2
    "jid-1" rfl).2

/-- C3: when the observed return code at the post-wait or post-poll check is
nonzero, run_report raises carrying that exit code while the Result Store
still maps the job id to the untouched SUBMITTED stub; when the observed code
is zero or the process has not exited, run_report returns the job id. -/
theorem run_report_failure_classification (env : LaunchEnv) (cfg : AppConfig)
    (store : ResultStore) (rn rt mt : String) (ov : List (String × String)) (hc gp po : Bool)
    (sj : Option String) (rs : Bool) (mf : Option String) (nr : Nat) :
    (∀ rc : Int, env.returncode = some rc → rc ≠ 0 →
      (run_report env cfg store rn rt mt ov hc gp po sj rs mf nr).2.2 = Except.error rc ∧
      get_check_result (run_report env cfg store rn rt mt ov hc gp po sj rs mf nr).1 env.job_id =
        some ⟨rn, rt, env.job_start_time, JobStatus.SUBMITTED, ov, mt, gp, hc, sj,
          none, [], "", []⟩) ∧
    ((env.returncode = some 0 ∨ env.returncode = none) →
      (run_report env cfg store rn rt mt ov hc gp po sj rs mf nr).2.2 =
        Except.ok env.job_id) := by
  constructor
  · intro rc hrc hz
    refine ⟨?_, get_check_result_save_same store env.job_id _⟩
    simp [run_report, hrc, hz]
  · rintro (hrc | hrc) <;> simp [run_report, hrc]

/-- C3 witness: a subprocess observed with exit code 2 raises carrying 2 and
leaves the SUBMITTED stub in place; an unexited one returns the job id. -/
theorem run_report_failure_classification_witness :
    (run_report ⟨"j", 0, some 2⟩ ⟨"/usr", "o", "t", "pb", "ps", "m", false, "S", []⟩
      [] "r" "T" "" [] false false false none false none 3).2.2 = Except.error 2 ∧
    get_check_result
      (run_report ⟨"j", 0, some 2⟩ ⟨"/usr", "o", "t", "pb", "ps", "m", false, "S", []⟩
        [] "r" "T" "" [] false false false none false none 3).1 "j" =
      some ⟨"r", "T", 0, JobStatus.SUBMITTED, [], "", false, false, none, none, [], "", []⟩ ∧
    (run_report ⟨"j", 0, none⟩ ⟨"/usr", "o", "t", "pb", "ps", "m", false, "S", []⟩
      [] "r" "T" "" [] false false false none false none 3).2.2 = Except.ok "j" := by
  have h1 := (run_report_failure_classification ⟨"j", 0, some 2⟩
    ⟨"/usr", "o", "t", "pb", "ps", "m", false, "S", []⟩
    [] "r" "T" "" [] false false false none false none 3).1 2 rfl (by decide)
  have h2 := (run_report_failure_classification ⟨"j", 0, none⟩
    ⟨"/usr", "o", "t", "pb", "ps", "m", false, "S", []⟩
    [] "r" "T" "" [] false false false none false none 3).2 (Or.inr rfl)
  exact ⟨h1.1, h1.2, h2⟩

/-- C5: for an existing prior record, rerun re-invokes run_report with the
prior record's report_name, mailto and overrides verbatim and with
scheduler_job_id cleared to none; under a fresh job id the original record is
unchanged, the new record carries the prior parameters, and (when the grace
check observes no exit) the brand-new job id is returned. -/
theorem rerun_preserves_prior_parameters (env : LaunchEnv) (cfg : AppConfig)
    (store : ResultStore) (jid : String) (po rs : Bool) (prior : JobRecord)
    (hfound : get_check_result store jid = some prior)
    (hfresh : env.job_id ≠ jid) :
    _rerun_report env cfg store jid po rs =
      some (run_report env cfg store prior.report_name (rerun_title prior.report_title)
        prior.mailto prior.overrides false prior.generate_pdf_output po none rs none 3) ∧
    get_check_result
      (run_report env cfg store prior.report_name (rerun_title prior.report_title)
        prior.mailto prior.overrides false prior.generate_pdf_output po none rs none 3).1
      jid = some prior ∧
    (∃ rec, get_check_result
        (run_report env cfg store prior.report_name (rerun_title prior.report_title)
          prior.mailto prior.overrides false prior.generate_pdf_output po none rs none 3).1
        env.job_id = some rec ∧
      rec.report_name = prior.report_name ∧ rec.mailto = prior.mailto ∧
      rec.overrides = prior.overrides ∧ rec.scheduler_job_id = none) ∧
    (env.returncode = none →
      (run_report env cfg store prior.report_name (rerun_title prior.report_title)
        prior.mailto prior.overrides false prior.generate_pdf_output po none rs none 3).2.2 =
        Except.ok env.job_id) := by
  refine ⟨?_, ?_, ?_, ?_⟩
  · simp [_rerun_report, hfound]
  · exact (get_check_result_save_other store env.job_id jid _ (Ne.symm hfresh)).trans hfound
  · exact ⟨_, get_check_result_save_same store env.job_id _, rfl, rfl, rfl, rfl⟩
  · intro hrc
    simp [run_report, hrc]

/-- A concrete launcher configuration used as a witness fixture. -/
def cfg0 : AppConfig := ⟨"/usr", "out", "tpl", "pyb", "pys", "mf", false, "S", []⟩

/-- A concrete prior job record used as a witness fixture; its hide_code is
true and its mailfrom is set, so the rerun witnesses exercise the non-default
values. -/
def prior0 : JobRecord :=
  ⟨"grp/rep", "T", 1, JobStatus.DONE, [("q", "1")], "m@x", true, true, some "sch",
   some "f@x", ["l"], "H", []⟩

/-- C5 witness: rerunning a concrete stored job leaves the original record
readable unchanged and returns the fresh job id. -/
theorem rerun_preserves_prior_parameters_witness :
    get_check_result
      (run_report ⟨"new", 9, none⟩ cfg0 [("old", prior0)] prior0.report_name
        (rerun_title prior0.report_title) prior0.mailto prior0.overrides false
        prior0.generate_pdf_output false none false none 3).1 "old" = some prior0 ∧
    (run_report ⟨"new", 9, none⟩ cfg0 [("old", prior0)] prior0.report_name
      (rerun_title prior0.report_title) prior0.mailto prior0.overrides false
      prior0.generate_pdf_output false none false none 3).2.2 = Except.ok "new" := by
  have h := rerun_preserves_prior_parameters ⟨"new", 9, none⟩ cfg0 [("old", prior0)] "old"
    false false prior0 (by decide) (by decide)
  exact ⟨h.2.1, h.2.2.2 rfl⟩

/-- C9: rerun never forwards the prior record's hide_code or mailfrom — the
re-invocation and its spawned command use the launcher defaults
hide_code=false and mailfrom=none (and scheduler_job_id=none, n_retries=3),
while report_name, derived title, mailto, overrides and generate_pdf_output
come from the prior record. -/
theorem rerun_uses_launcher_defaults (env : LaunchEnv) (cfg : AppConfig)
    (store : ResultStore) (jid : String) (po rs : Bool) (prior : JobRecord)
    (hfound : get_check_result store jid = some prior) :
    _rerun_report env cfg store jid po rs =
      some (run_report env cfg store prior.report_name (rerun_title prior.report_title)
        prior.mailto prior.overrides false prior.generate_pdf_output po none rs none 3) ∧
    (∃ rec, get_check_result
        (run_report env cfg store prior.report_name (rerun_title prior.report_title)
          prior.mailto prior.overrides false prior.generate_pdf_output po none rs none 3).1
        env.job_id = some rec ∧
      rec.hide_code = false ∧ rec.mailfrom = none ∧
      rec.report_name = prior.report_name ∧
      rec.report_title = rerun_title prior.report_title ∧
      rec.mailto = prior.mailto ∧ rec.overrides = prior.overrides ∧
      rec.generate_pdf_output = prior.generate_pdf_output ∧
      rec.scheduler_job_id = none) ∧
    (∃ rec2 rest,
      (run_report env cfg store prior.report_name (rerun_title prior.report_title)
        prior.mailto prior.overrides false prior.generate_pdf_output po none rs none 3).2.1 =
      Event.stubWrite env.job_id rec2 :: Event.spawn
        (build_command cfg env.job_id prior.report_name (rerun_title prior.report_title)
          prior.mailto prior.overrides prior.generate_pdf_output false 3 po none none)
        :: rest) := by
  refine ⟨by simp [_rerun_report, hfound], ?_, ⟨_, _, rfl⟩⟩
  exact ⟨_, get_check_result_save_same store env.job_id _, rfl, rfl, rfl, rfl, rfl, rfl, rfl, rfl⟩

/-- C9 witness: the prior record stores hide_code=true and a mailfrom, yet the
record created by the rerun has hide_code=false and no mailfrom. -/
theorem rerun_uses_launcher_defaults_witness :
    prior0.hide_code = true ∧ prior0.mailfrom = some "f@x" ∧
    (∃ rec, get_check_result
        (run_report ⟨"new", 9, none⟩ cfg0 [("old", prior0)] prior0.report_name
          (rerun_title prior0.report_title) prior0.mailto prior0.overrides false
          prior0.generate_pdf_output false none false none 3).1 "new" = some rec ∧
      rec.hide_code = false ∧ rec.mailfrom = none) := by
  have h := rerun_uses_launcher_defaults ⟨"new", 9, none⟩ cfg0 [("old", prior0)] "old"
    false false prior0 (by decide)
  obtain ⟨-, ⟨rec, hrec, hhc, hmf, -, -, -, -, -, -⟩, -⟩ := h
  exact ⟨rfl, rfl, rec, hrec, hhc, hmf⟩

/-- Helper: a run of well-formed, non-terminating, non-raising reads followed
by a terminating read finishes with the stored stdout replaced by the whole
accumulated buffer, no matter whether the individual appends were applied. -/
theorem monitor_loop_complete (term : ReadEv) (rest : List ReadEv)
    (h1 : term.decoded = Except.ok "") (h2 : term.poll ≠ none) :
    ∀ (pre : List ReadEv) (buffer stored : List String),
      (∀ ev ∈ pre, ev.appendRaises = false ∧
        ∃ l, ev.decoded = Except.ok l ∧ (l ≠ "" ∨ ev.poll = none)) →
      monitor_loop buffer stored (pre ++ term :: rest) =
        MonitorOutcome.finished (String.join (buffer ++ pre.map decoded_line))
          (buffer ++ pre.map decoded_line) := by
  intro pre
  induction pre with
  | nil =>
    intro buffer stored _
    simp [monitor_loop, h1, h2]
  | cons ev pre ih =>
    intro buffer stored hpre
    obtain ⟨hraise, l, hdec, hcont⟩ := hpre ev (List.mem_cons_self _ _)
    have hcond : ¬(l = "" ∧ ev.poll ≠ none) := by
      rcases hcont with h | h
      · exact fun hc => h hc.1
      · exact fun hc => hc.2 h
    have step : monitor_loop buffer stored ((ev :: pre) ++ term :: rest) =
        monitor_loop (buffer ++ [l]) (if ev.appendApplied then stored ++ [l] else stored)
          (pre ++ term :: rest) := by
      simp [monitor_loop, hdec, hraise, hcond]
    rw [step, ih _ _ (fun e he => hpre e (List.mem_cons_of_mem _ he))]
    have hdl : decoded_line ev = l := by simp [decoded_line, hdec]
    simp [hdl, List.append_assoc]

/-- C2: once the stream closes and the process has exited (a read of "" with a
non-none poll), the monitor issues the final replace, so the stored stdout
equals exactly the ordered sequence of lines read, regardless of whether any
earlier incremental append was applied or lost. -/
theorem monitor_final_replace_exact (pre : List ReadEv) (term : ReadEv) (rest : List ReadEv)
    (hpre : ∀ ev ∈ pre, ev.appendRaises = false ∧
      ∃ l, ev.decoded = Except.ok l ∧ (l ≠ "" ∨ ev.poll = none))
    (h1 : term.decoded = Except.ok "") (h2 : term.poll ≠ none) :
    monitor_loop [] [] (pre ++ term :: rest) =
      MonitorOutcome.finished (String.join (pre.map decoded_line)) (pre.map decoded_line) := by
  have h := monitor_loop_complete term rest h1 h2 pre [] [] hpre
  simpa using h

/-- C2 witness: two lines are read, the first append is lost and the second is
applied, yet the final stored stdout is exactly both lines in order. -/
theorem monitor_final_replace_exact_witness :
    monitor_loop [] []
      [⟨Except.ok "a", none, false, false⟩, ⟨Except.ok "b", some 1, false, true⟩,
       ⟨Except.ok "", some 0, false, false⟩] =
      MonitorOutcome.finished "ab" ["a", "b"] := by
  have h := monitor_final_replace_exact
    [⟨Except.ok "a", none, false, false⟩, ⟨Except.ok "b", some 1, false, true⟩]
    ⟨Except.ok "", some 0, false, false⟩ [] ?hpre rfl (by decide)
  case hpre =>
    intro ev hev
    simp at hev
    rcases hev with rfl | rfl
    · exact ⟨rfl, "a", rfl, by decide⟩
    · exact ⟨rfl, "b", rfl, by decide⟩
  exact h.trans (by decide)

/-- C10: the loop terminates normally only at a read of "" while the poll is
not none; a read of "" while the process still runs is appended to the buffer
and persisted like any other line. -/
theorem monitor_termination_condition :
    (∀ (buffer stored : List String) (reads : List ReadEv) (ret : String)
        (final : List String),
      monitor_loop buffer stored reads = MonitorOutcome.finished ret final →
      ∃ pre ev rest, reads = pre ++ ev :: rest ∧
        ev.decoded = Except.ok "" ∧ ev.poll ≠ none) ∧
    (∀ (buffer stored : List String) (ev : ReadEv) (rest : List ReadEv),
      ev.decoded = Except.ok "" → ev.poll = none → ev.appendRaises = false →
      ev.appendApplied = true →
      monitor_loop buffer stored (ev :: rest) =
        monitor_loop (buffer ++ [""]) (stored ++ [""]) rest) := by
  constructor
  · intro buffer stored reads
    induction reads generalizing buffer stored with
    | nil =>
      intro ret final h
      simp [monitor_loop] at h
    | cons e tl ih =>
      intro ret final h
      rcases hdec : e.decoded with u | l
      · simp [monitor_loop, hdec] at h
      · by_cases hc : l = "" ∧ e.poll ≠ none
        · exact ⟨[], e, tl, rfl, by rw [hdec, hc.1], hc.2⟩
        · rcases hr : e.appendRaises with _ | _
          · have hstep : monitor_loop buffer stored (e :: tl) =
                monitor_loop (buffer ++ [l])
                  (if e.appendApplied then stored ++ [l] else stored) tl := by
              simp [monitor_loop, hdec, hc, hr]
            rw [hstep] at h
            obtain ⟨pre, ev, rest, hsplit, hd, hp⟩ := ih _ _ _ _ h
            exact ⟨e :: pre, ev, rest, by rw [hsplit]; rfl, hd, hp⟩
          · simp [monitor_loop, hdec, hc, hr] at h
  · intro buffer stored ev rest hdec hpoll hraise happ
    simp [monitor_loop, hdec, hpoll, hraise, happ]

/-- C10 witness: a concrete run whose first read is "" while the process still
runs terminates only at the later exited read, and the empty line is appended
and persisted, leaving an empty-string entry in the final stored stdout. -/
theorem monitor_termination_condition_witness :
    (∃ pre ev rest,
      ([⟨Except.ok "", none, false, true⟩, ⟨Except.ok "", some 0, false, false⟩] :
          List ReadEv) = pre ++ ev :: rest ∧
      ev.decoded = Except.ok "" ∧ ev.poll ≠ none) ∧
    monitor_loop [] [] [(⟨Except.ok "", none, false, true⟩ : ReadEv)] =
      monitor_loop [""] [""] [] := by
  constructor
  · exact monitor_termination_condition.1 [] []
      [⟨Except.ok "", none, false, true⟩, ⟨Except.ok "", some 0, false, false⟩]
      "" [""] (by decide)
  · have h := monitor_termination_condition.2 [] [] ⟨Except.ok "", none, false, true⟩ []
      rfl rfl rfl rfl
    simpa using h

/-- C6 counterexample: the monitor loop has no exception handling. On an
undecodable first line it raises out of the loop with nothing appended (the
malformed line is not preserved), never reaching the terminating read; and a
per-line persistence failure likewise raises instead of being logged and
skipped — in both runs the terminating read that follows is never processed. -/
theorem monitor_no_error_handling_counterexample :
    monitor_loop [] []
      [⟨Except.error (), none, false, false⟩, ⟨Except.ok "", some 0, false, false⟩] =
      MonitorOutcome.raised [] [] ∧
    monitor_loop [] []
      [⟨Except.ok "x", none, true, false⟩, ⟨Except.ok "", some 0, false, false⟩] =
      MonitorOutcome.raised [] ["x"] := by
  decide

/-- C6 amended: the loop survives exactly the runs whose reads all decode and
whose per-line writes all return: such runs never raise; a decode failure
raises immediately without appending the malformed line, and a raising
per-line write raises after buffering the line, terminating the loop early. -/
theorem monitor_exception_propagation :
    (∀ (reads : List ReadEv) (buffer stored : List String),
      (∀ ev ∈ reads, (∃ l, ev.decoded = Except.ok l) ∧ ev.appendRaises = false) →
      ∀ st bu, monitor_loop buffer stored reads ≠ MonitorOutcome.raised st bu) ∧
    (∀ (buffer stored : List String) (rest : List ReadEv) (ev : ReadEv),
      ev.decoded = Except.error () →
      monitor_loop buffer stored (ev :: rest) = MonitorOutcome.raised stored buffer) ∧
    (∀ (buffer stored : List String) (rest : List ReadEv) (ev : ReadEv) (line : String),
      ev.decoded = Except.ok line → (line ≠ "" ∨ ev.poll = none) → ev.appendRaises = true →
      monitor_loop buffer stored (ev :: rest) =
        MonitorOutcome.raised stored (buffer ++ [line])) := by
  refine ⟨?_, ?_, ?_⟩
  · intro reads
    induction reads with
    | nil =>
      intro buffer stored _ st bu h
      simp [monitor_loop] at h
    | cons e tl ih =>
      intro buffer stored hok st bu h
      obtain ⟨⟨l, hdec⟩, hraise⟩ := hok e (List.mem_cons_self _ _)
      by_cases hc : l = "" ∧ e.poll ≠ none
      · simp [monitor_loop, hdec, hc.1, hc.2] at h
      · have hstep : monitor_loop buffer stored (e :: tl) =
            monitor_loop (buffer ++ [l])
              (if e.appendApplied then stored ++ [l] else stored) tl := by
          simp [monitor_loop, hdec, hraise, hc]
        rw [hstep] at h
        exact ih _ _ (fun ev hev => hok ev (List.mem_cons_of_mem _ hev)) st bu h
  · intro buffer stored rest ev hdec
    simp [monitor_loop, hdec]
  · intro buffer stored rest ev line hdec hcont hraise
    have hcond : ¬(line = "" ∧ ev.poll ≠ none) := by
      rcases hcont with h | h
      · exact fun hc => h hc.1
      · exact fun hc => hc.2 h
    simp [monitor_loop, hdec, hraise, hcond]

/-- C6 amended witness: a decode failure at the head raises with nothing
appended, and a run of well-formed, successfully persisted lines never
raises. -/
theorem monitor_exception_propagation_witness :
    monitor_loop [] [] [(⟨Except.error (), some 0, false, false⟩ : ReadEv)] =
      MonitorOutcome.raised [] [] ∧
    ∀ st bu, monitor_loop [] [] [(⟨Except.ok "a", none, false, true⟩ : ReadEv)] ≠
      MonitorOutcome.raised st bu := by
  constructor
  · exact monitor_exception_propagation.2.1 [] [] [] _ rfl
  · intro st bu
    refine monitor_exception_propagation.1 _ [] [] ?_ st bu
    intro ev hev
    simp at hev
    subst hev
    exact ⟨⟨"a", rfl⟩, rfl⟩

/-- Helper: when the directory already exists, `_create_dirs_if_not_present`
swallows the EEXIST error and returns the unchanged state. -/
theorem create_dirs_mem_ok (env : OSEnv) (filename : String)
    (h : os_path_dirname filename ∈ env.dirs) :
    _create_dirs_if_not_present env filename = Except.ok env := by
  simp [_create_dirs_if_not_present, os_makedirs, h]

/-- Helper: when the OS raises no errno other than EEXIST for the target
directory, `_create_dirs_if_not_present` succeeds, preserves the failure map,
and afterwards the target directory exists. -/
theorem create_dirs_if_not_present_ok (env : OSEnv) (filename : String)
    (h : env.mkdirFails (os_path_dirname filename) = none) :
    ∃ env2, _create_dirs_if_not_present env filename = Except.ok env2 ∧
      env2.mkdirFails = env.mkdirFails ∧ os_path_dirname filename ∈ env2.dirs := by
  by_cases hmem : os_path_dirname filename ∈ env.dirs
  · exact ⟨env, create_dirs_mem_ok env filename hmem, rfl, hmem⟩
  · exact ⟨⟨os_path_dirname filename :: env.dirs, env.mkdirFails⟩,
      by simp [_create_dirs_if_not_present, os_makedirs, hmem, h], rfl,
      List.mem_cons_self _ _⟩

/-- Helper: a directory-creation errno other than EEXIST is re-raised by
`_create_dirs_if_not_present`. -/
theorem create_dirs_error (env : OSEnv) (filename : String) (e : Int)
    (hmem : os_path_dirname filename ∉ env.dirs)
    (hmk : env.mkdirFails (os_path_dirname filename) = some e) (he : e ≠ EEXIST) :
    _create_dirs_if_not_present env filename = Except.error e := by
  simp [_create_dirs_if_not_present, os_makedirs, hmem, hmk, he]

/-- C7: provided the OS raises nothing but possibly EEXIST for the target
directory, the exporter writes the record's rendered text to
destination_root/report_suffix/label.html, where report_suffix is the final
slash-separated segment of the report name and label concatenates each
name_value override pair in insertion order. -/
theorem snapshot_html_write (fs : FS) (result : JobRecord) (root report_name : String)
    (h : fs.os.mkdirFails (os_path_dirname (os_path_join (snap_report_directory root report_name)
        (String.join (result.overrides.map fun p => p.1 ++ "_" ++ p.2) ++ ".html"))) = none) :
    ∃ fs2, _write_notebook_html fs result (snap_report_directory root report_name) =
        Except.ok fs2 ∧
      fs2.files.head? = some
        (os_path_join (os_path_join root ((py_split report_name '/').getLastD ""))
          (String.join (result.overrides.map fun p => p.1 ++ "_" ++ p.2) ++ ".html"),
         result.raw_html) := by
  obtain ⟨env2, hcd, -, -⟩ := create_dirs_if_not_present_ok fs.os _ h
  have hw : _write_notebook_html fs result (snap_report_directory root report_name) =
      Except.ok ⟨env2,
        (os_path_join (snap_report_directory root report_name)
          (String.join (result.overrides.map fun p => p.1 ++ "_" ++ p.2) ++ ".html"),
         result.raw_html) :: fs.files, fs.binfiles⟩ := by
    simp only [_write_notebook_html]
    rw [hcd]
  exact ⟨_, hw, rfl⟩

/-- C7 witness: overrides region=EU, year=2024 under report name
"reports/sales" and destination root "out" produce exactly the file
out/sales/region_EUyear_2024.html holding the record's rendered text. -/
theorem snapshot_html_write_witness :
    ∃ fs2, _write_notebook_html ⟨⟨[], fun _ => none⟩, [], []⟩
        (⟨"reports/sales", "T", 0, JobStatus.DONE, [("region", "EU"), ("year", "2024")], "",
          false, false, none, none, [], "HTML", []⟩ : JobRecord)
        (snap_report_directory "out" "reports/sales") = Except.ok fs2 ∧
      fs2.files.head? = some ("out/sales/region_EUyear_2024.html", "HTML") := by
  obtain ⟨fs2, h1, h2⟩ := snapshot_html_write ⟨⟨[], fun _ => none⟩, [], []⟩
    ⟨"reports/sales", "T", 0, JobStatus.DONE, [("region", "EU"), ("year", "2024")], "",
      false, false, none, none, [], "HTML", []⟩ "out" "reports/sales" rfl
  exact ⟨fs2, h1, h2.trans (by decide)⟩

/-- C8: directory creation during export is idempotent — an already-existing
target directory yields success with unchanged state, so exporting the same
report twice succeeds — while any directory-creation errno other than EEXIST
is re-raised and aborts that file's write. -/
theorem export_directory_creation :
    (∀ (env : OSEnv) (filename : String), os_path_dirname filename ∈ env.dirs →
      _create_dirs_if_not_present env filename = Except.ok env) ∧
    (∀ (env : OSEnv) (filename : String) (e : Int), os_path_dirname filename ∉ env.dirs →
      env.mkdirFails (os_path_dirname filename) = some e → e ≠ EEXIST →
      _create_dirs_if_not_present env filename = Except.error e) ∧
    (∀ (fs : FS) (result : JobRecord) (directory : String) (e : Int),
      os_path_dirname (os_path_join directory
        (String.join (result.overrides.map fun p => p.1 ++ "_" ++ p.2) ++ ".html"))
        ∉ fs.os.dirs →
      fs.os.mkdirFails (os_path_dirname (os_path_join directory
        (String.join (result.overrides.map fun p => p.1 ++ "_" ++ p.2) ++ ".html"))) =
        some e →
      e ≠ EEXIST →
      _write_notebook_html fs result directory = Except.error e) ∧
    (∀ (fs : FS) (result : JobRecord) (directory : String),
      fs.os.mkdirFails (os_path_dirname (os_path_join directory
        (String.join (result.overrides.map fun p => p.1 ++ "_" ++ p.2) ++ ".html"))) =
        none →
      ∃ fs2 fs3, _write_notebook_html fs result directory = Except.ok fs2 ∧
        _write_notebook_html fs2 result directory = Except.ok fs3) := by
  refine ⟨create_dirs_mem_ok, create_dirs_error, ?_, ?_⟩
  · intro fs result directory e hmem hmk he
    have hcd := create_dirs_error fs.os _ e hmem hmk he
    simp only [_write_notebook_html]
    rw [hcd]
  · intro fs result directory h
    obtain ⟨env2, hcd, hmk2, hmem2⟩ := create_dirs_if_not_present_ok fs.os _ h
    have hw1 : _write_notebook_html fs result directory =
        Except.ok ⟨env2,
          (os_path_join directory
            (String.join (result.overrides.map fun p => p.1 ++ "_" ++ p.2) ++ ".html"),
           result.raw_html) :: fs.files, fs.binfiles⟩ := by
      simp only [_write_notebook_html]
      rw [hcd]
    have hcd2 := create_dirs_mem_ok env2 (os_path_join directory
      (String.join (result.overrides.map fun p => p.1 ++ "_" ++ p.2) ++ ".html")) hmem2
    have hw2 : _write_notebook_html
        ⟨env2,
          (os_path_join directory
            (String.join (result.overrides.map fun p => p.1 ++ "_" ++ p.2) ++ ".html"),
           result.raw_html) :: fs.files, fs.binfiles⟩ result directory =
        Except.ok ⟨env2,
          (os_path_join directory
            (String.join (result.overrides.map fun p => p.1 ++ "_" ++ p.2) ++ ".html"),
           result.raw_html) ::
          (os_path_join directory
            (String.join (result.overrides.map fun p => p.1 ++ "_" ++ p.2) ++ ".html"),
           result.raw_html) :: fs.files, fs.binfiles⟩ := by
      simp only [_write_notebook_html]
      rw [hcd2]
    exact ⟨_, _, hw1, hw2⟩

/-- C8 witness: creating into an existing directory succeeds unchanged, a
non-EEXIST errno (13, EACCES) is re-raised, and a concrete record exports
twice in succession. -/
theorem export_directory_creation_witness :
    _create_dirs_if_not_present ⟨["d"], fun _ => none⟩ "d/f.html" =
      Except.ok ⟨["d"], fun _ => none⟩ ∧
    _create_dirs_if_not_present ⟨[], fun _ => some 13⟩ "d/f.html" = Except.error 13 ∧
    (∃ fs2 fs3, _write_notebook_html ⟨⟨[], fun _ => none⟩, [], []⟩ prior0 "out/rep" =
        Except.ok fs2 ∧
      _write_notebook_html fs2 prior0 "out/rep" = Except.ok fs3) := by
  refine ⟨?_, ?_, ?_⟩
  · exact export_directory_creation.1 ⟨["d"], fun _ => none⟩ "d/f.html" (by decide)
  · exact export_directory_creation.2.1 ⟨[], fun _ => some 13⟩ "d/f.html" 13 (by decide)
      rfl (by decide)
  · exact export_directory_creation.2.2.2 ⟨⟨[], fun _ => none⟩, [], []⟩ prior0 "out/rep" rfl

end Notebooker
